import Mathlib

/-!
Shallow embedding of the `llm_sandbox` sandboxed-execution library
(`src/llm_sandbox/base.py`, `src/llm_sandbox/docker.py`,
`src/llm_sandbox/utils.py`).

Python machine-level details are modelled as follows: Python `int` is
`Int`; Python exceptions become `Except`/`Option` error values; the
Docker daemon's state (containers and images) is an explicit `DockerWorld`
record, and the side effects a method performs on it are returned as an
explicit list of `CloseEffect`s; the truthiness test Python applies to
optional strings (`if image and dockerfile:`) is `optTruthy`.
The module `llm_sandbox/const.py` is imported by the source but is not
part of the repository snapshot; the constants it provides
(`SupportedLanguage`, `SupportedLanguageValues`, `DefaultImage`,
`NotSupportedLibraryInstallation`) are modelled from the spec where
needed, as documented on each such definition.
-/

namespace LlmSandbox

/-- The supported-language tag.
Modelled from the spec (§3 data model: "SupportedLanguage: enumerated tag
{python, java, javascript, cpp, go, ruby}") because `llm_sandbox/const.py`,
which defines `SupportedLanguage`, is missing from the snapshot; the six
values are exactly the ones `utils.py` and `docker.py` dispatch on. -/
inductive Lang where
  | python
  | java
  | javascript
  | cpp
  | go
  | ruby
deriving DecidableEq, Repr

/-- The string value of each `SupportedLanguage` member, as used by the
source's string comparisons (`lang == SupportedLanguage.PYTHON` etc.).
Modelled from the spec together with the lowercase spelling the source
relies on (`DefaultImage.__dict__[lang.upper()]`). -/
def Lang.toStr : Lang → String
  | .python => "python"
  | .java => "java"
  | .javascript => "javascript"
  | .cpp => "cpp"
  | .go => "go"
  | .ruby => "ruby"

/-- `SupportedLanguageValues` membership test: which strings name a
supported language. Modelled from the spec (see `Lang`). -/
def langOfString? (s : String) : Option Lang :=
  if s = "python" then some .python
  else if s = "java" then some .java
  else if s = "javascript" then some .javascript
  else if s = "cpp" then some .cpp
  else if s = "go" then some .go
  else if s = "ruby" then some .ruby
  else none

/-- `ConsoleOutput` from `base.py`: optional stdout and stderr of one
command execution (`None` when the stream produced no bytes). -/
structure ConsoleOutput where
  stdout : Option String
  stderr : Option String
deriving DecidableEq, Repr

/-! ## `utils.get_code_execution_command` -/

/-- `get_code_execution_command(lang, code_file, run_memory_profile)` from
`utils.py`, transliterated branch by branch.  The source raises
`ValueError` for unsupported languages; with `Lang` an enumeration every
case is covered, so no error branch remains. -/
def get_code_execution_command (lang : Lang) (code_file : String)
    (run_memory_profile : Bool) : List String :=
  if run_memory_profile then
    match lang with
    | .python => ["/tmp/memory_profiler.sh python " ++ code_file]
    | .java => ["/tmp/memory_profiler.sh java " ++ code_file]
    | .javascript => ["/tmp/memory_profiler.sh node " ++ code_file]
    | .cpp => ["g++ -o a.out " ++ code_file, "/tmp/memory_profiler.sh ./a.out"]
    | .go => ["/tmp/memory_profiler.sh go run " ++ code_file]
    | .ruby => ["ruby " ++ code_file]
  else
    match lang with
    | .python => ["python " ++ code_file]
    | .java => ["java " ++ code_file]
    | .javascript => ["node " ++ code_file]
    | .cpp => ["g++ -o a.out " ++ code_file, "./a.out"]
    | .go => ["go run " ++ code_file]
    | .ruby => ["ruby " ++ code_file]

/-- The memory-sampling helper invocation prefix: profiled commands in
`utils.py` are the unprofiled ones preceded by `/tmp/memory_profiler.sh `
(the fixed `profiler_dest_path` of `docker.py` plus a space). -/
def profilerHelper : String := "/tmp/memory_profiler.sh "

/-- `get_libraries_installation_command(lang, library)` from `utils.py`. -/
def get_libraries_installation_command (lang : Lang) (library : String) : String :=
  match lang with
  | .python => "pip install " ++ library
  | .java => "mvn install:install-file -Dfile=" ++ library
  | .javascript => "yarn add " ++ library
  | .cpp => "apt-get install " ++ library
  | .go => "go get -u " ++ library
  | .ruby => "gem install " ++ library

/-! ## The `run` command loop (docker.py lines 209-221)

`run` initializes `output = ConsoleOutput()` and then, for each command of
the sequence, overwrites `output` with that command's result; the value
returned to the caller is therefore the **last** command's output (or the
empty `ConsoleOutput` when the sequence is empty).  The loop is modelled
as a fold over the list of per-command results. -/

/-- The `output` variable after the `for index, command in enumerate(commands)`
loop of `SandboxDockerSession.run`, given the `ConsoleOutput` each command's
execution produced: every iteration overwrites `output`, so the fold keeps
the last element, starting from `ConsoleOutput()` (both streams `None`). -/
def runCommandLoopOutput (outputs : List ConsoleOutput) : ConsoleOutput :=
  outputs.foldl (fun _ o => o) ⟨none, none⟩

/-- The last non-empty stderr across a command sequence's outputs.
This definition follows the SPEC's words (§7: "the last non-empty stderr
across the run's command sequence is not lost"), to be compared with what
the source's loop actually returns; `None` and `""` both count as empty. -/
def lastNonEmptyStderr (outputs : List ConsoleOutput) : Option String :=
  outputs.foldl
    (fun acc o =>
      match o.stderr with
      | some s => if s = "" then acc else some s
      | none => acc)
    none

/-! ## Resource accounting (docker.py lines 222-240)

After the command loop, `run` initializes
`duration, peak_memory, integral, log = 0, 0, 0, list()` and, when
profiling was requested, retrieves `mem_usage.log` from the container
(`copy_from_runtime` raises `FileNotFoundError` when the reported size is
zero), then for each line does `timestamp, mem = line.split(" ")` (a
`ValueError` when the line is not exactly two space-separated fields),
`peak_memory = max(peak_memory, int(mem))`, `integral += peak_memory`,
appends `(int(timestamp), int(mem))` to `log`, and finally sets
`duration = (log[-1][0] - log[0][0]) / 1000000` — an `IndexError` when
`log` is empty. -/

/-- Python `str.split(sep)` for a one-character separator, over the
character list: splits at every occurrence, keeping empty pieces
(`"a  b".split(" ") == ["a", "", "b"]`, `"".split(" ") == [""]`). -/
def splitChar (sep : Char) : List Char → List (List Char)
  | [] => [[]]
  | c :: cs =>
    if c = sep then [] :: splitChar sep cs
    else
      match splitChar sep cs with
      | [] => [[c]]
      | g :: gs => (c :: g) :: gs

/-- Python `int(s)` on a string: strips surrounding whitespace, accepts an
optional single `+`/`-` sign followed by at least one decimal digit, and
fails (`ValueError`, here `none`) otherwise. -/
def pyInt? (s : String) : Option Int :=
  let t := ((s.toList.dropWhile Char.isWhitespace).reverse.dropWhile
    Char.isWhitespace).reverse
  let core : List Char → Option Int := fun cs =>
    if cs ≠ [] ∧ cs.all Char.isDigit then
      some (Int.ofNat (cs.foldl (fun acc c => 10 * acc + c.toNat - 48) 0))
    else none
  match t with
  | [] => none
  | c :: rest =>
    if c = '-' then (core rest).map (fun n => -n)
    else if c = '+' then core rest
    else core (c :: rest)

/-- Python `file.readlines()` on the file's full contents, with each
line's trailing newline already dropped (the source only ever splits the
line on single spaces and feeds the pieces to `int`, which strips
whitespace, so dropping the `\n` here is observationally equal). -/
def readlines (content : String) : List String :=
  let parts := (splitChar '\n' content.toList).map (fun cs => String.mk cs)
  if parts.getLast? = some "" then parts.dropLast else parts

/-- One iteration of the `for line in mem_profile.readlines()` loop:
`timestamp, mem = line.split(" ")` (exactly two fields or `ValueError`),
then `int(timestamp)` / `int(mem)` (`ValueError` on non-integers).
Returns the parsed sample or `none` for the raised exception. -/
def parseMemLine (line : String) : Option (Int × Int) :=
  match (splitChar ' ' line.toList).map (fun cs => String.mk cs) with
  | [t, m] =>
    match pyInt? t, pyInt? m with
    | some ti, some mi => some (ti, mi)
    | _, _ => none
  | _ => none

/-- The profiling statistics `run` computes from the sample series. -/
structure MemStats where
  peak_memory : Int
  integral : Int
  duration : ℚ
  log : List (Int × Int)
deriving DecidableEq, Repr

/-- Errors the profiling tail of `run` can raise. -/
inductive RunError where
  /-- `FileNotFoundError` from `copy_from_runtime` (reported size zero). -/
  | fileNotFound
  /-- `ValueError` from `line.split(" ")` unpacking or from `int(...)`. -/
  | valueError
  /-- `IndexError` from `log[-1]` when `log` is empty. -/
  | indexError
deriving DecidableEq, Repr

instance {ε α : Type} [DecidableEq ε] [DecidableEq α] : DecidableEq (Except ε α) :=
  fun a b =>
    match a, b with
    | .error e1, .error e2 =>
      if h : e1 = e2 then .isTrue (by rw [h])
      else .isFalse (fun hc => h (by injection hc))
    | .ok v1, .ok v2 =>
      if h : v1 = v2 then .isTrue (by rw [h])
      else .isFalse (fun hc => h (by injection hc))
    | .error _, .ok _ => .isFalse (fun hc => Except.noConfusion hc)
    | .ok _, .error _ => .isFalse (fun hc => Except.noConfusion hc)

/-- The reduction loop's accumulator step over one parsed sample:
`peak_memory = max(peak_memory, mem); integral += peak_memory;
log.append((timestamp, mem))`, starting from `0, 0, []`. -/
def reduceStep : (Int × Int) × List (Int × Int) → Int × Int → (Int × Int) × List (Int × Int)
  | ((peak, integral), log), (timestamp, mem) =>
    ((max peak mem, integral + max peak mem), log ++ [(timestamp, mem)])

/-- The reduction of an already-parsed sample sequence, including the
final `duration = (log[-1][0] - log[0][0]) / 1000000`: `none` models the
`IndexError` the source raises there when the sequence is empty. -/
def reduceLog (samples : List (Int × Int)) : Option MemStats :=
  let acc := samples.foldl reduceStep ((0, 0), [])
  match samples.head?, samples.getLast? with
  | some first, some last =>
    some ⟨acc.1.1, acc.1.2, ((last.1 - first.1 : Int) : ℚ) / 1000000, acc.2⟩
  | _, _ => none

/-- The whole profiling tail of `run` (docker.py lines 222-240):
`feedContent` is the text of `mem_usage.log` as retrieved by
`copy_from_runtime`, or `none` when that call raised `FileNotFoundError`
(reported archive size zero, the only way an absent or empty feed file
reaches this code).  When `run_memory_profile` is false the zero-valued
statistics from the initialization line are returned unchanged. -/
def runProfileStats (run_memory_profile : Bool) (feedContent : Option String) :
    Except RunError MemStats :=
  if run_memory_profile then
    match feedContent with
    | none => .error .fileNotFound
    | some content =>
      match (readlines content).mapM parseMemLine with
      | none => .error .valueError
      | some samples =>
        match reduceLog samples with
        | none => .error .indexError
        | some stats => .ok stats
  else
    .ok ⟨0, 0, 0, []⟩

/-- The sum of the running maximum of the resident-memory field at each
step.  This definition follows the SPEC's words (§8: "equals the sum of
the running maximum at each step"): the i-th contribution is the maximum
of the first i+1 resident-memory values. -/
def runningMaxSum (mems : List Int) : Int :=
  ((List.range mems.length).map
    (fun i => ((mems.take (i + 1)).foldl max (mems.headD 0)))).sum

/-! ## `SandboxDockerSession.setup` (docker.py lines 161-183)

`setup` first unconditionally executes `apt update` and `apt install time`,
then — only when `libraries` is non-empty (Python truthiness of a list) —
checks `self.lang.upper() in NotSupportedLibraryInstallation` and raises
`ValueError` (the spec's `UnsupportedOperationError`), otherwise runs the
per-library install commands (with Go getting a workspace bootstrap
first).  The model returns the list of commands handed to
`execute_command`, in order, together with the raised error if any. -/

/-- The error `setup` raises for a language whose library installation is
unsupported (a `ValueError` in the source; the spec's
`UnsupportedOperationError`). -/
inductive SetupError where
  | unsupportedOperation
deriving DecidableEq, Repr

/-- `SandboxDockerSession.setup(libraries)`.  `installNotSupported` is the
membership test `lang.upper() in NotSupportedLibraryInstallation`, kept
abstract because `const.py` (defining `NotSupportedLibraryInstallation`)
is missing from the snapshot; the spec only says each language carries
"an allow/deny flag for dependency installation".  Returns the commands
executed, in order, and the error raised if any. -/
def setup (installNotSupported : Lang → Bool) (lang : Lang)
    (libraries : List String) : List String × Option SetupError :=
  let bootstrap := ["apt update", "apt install time"]
  if libraries ≠ [] then
    if installNotSupported lang then
      (bootstrap, some .unsupportedOperation)
    else if lang = .go then
      (bootstrap ++ ["mkdir -p /go_space", "go mod init go_space", "go mod tidy"]
        ++ libraries.map (get_libraries_installation_command .go), none)
    else
      (bootstrap ++ libraries.map (get_libraries_installation_command lang), none)
  else
    (bootstrap, none)

/-! ## `SandboxDockerSession.__init__` (docker.py lines 27-83) -/

/-- Errors `__init__` raises (both are `ValueError`s in the source). -/
inductive InitError where
  /-- "Only one of image or dockerfile should be provided". -/
  | bothImageAndDockerfile
  /-- "Language ... is not supported". -/
  | unsupportedLanguage
deriving DecidableEq, Repr

/-- The fields of the session that `__init__` establishes and that the
claims observe. -/
structure InitResult where
  image : Option String
  dockerfile : Option String
  lang : Lang
deriving DecidableEq, Repr

/-- Python truthiness of an optional string: `None` and `""` are falsy. -/
def optTruthy : Option String → Bool
  | none => false
  | some s => s ≠ ""

/-- `SandboxDockerSession.__init__`: raises `ValueError` when both image
and dockerfile are given, raises `ValueError` when the language string is
outside the supported set, and defaults the image to the language's entry
in `DefaultImage` when neither image nor dockerfile is given.
`defaultImage` abstracts `DefaultImage.__dict__[lang.upper()]` because
`const.py` (defining `DefaultImage`) is missing from the snapshot; the
spec only says the language selects a default base image.  No environment
is provisioned here: the source's `__init__` only records configuration
(container creation happens in `open`). -/
def initSession (defaultImage : Lang → String) (image dockerfile : Option String)
    (lang : String) : Except InitError InitResult :=
  if optTruthy image ∧ optTruthy dockerfile then
    .error .bothImageAndDockerfile
  else
    match langOfString? lang with
    | none => .error .unsupportedLanguage
    | some l =>
      if ¬ optTruthy image ∧ ¬ optTruthy dockerfile then
        .ok ⟨some (defaultImage l), dockerfile, l⟩
      else
        .ok ⟨image, dockerfile, l⟩

/-! ## `SandboxDockerSession.copy_from_runtime` (docker.py lines 242-257) -/

/-- Errors `copy_from_runtime` raises. -/
inductive CopyError where
  /-- `RuntimeError`: session not open (`self.container` is `None`). -/
  | notOpen
  /-- `FileNotFoundError` (the spec's `RemoteFileNotFoundError`):
  the fetched archive's reported size is zero. -/
  | remoteFileNotFound
deriving DecidableEq, Repr

/-- `copy_from_runtime(src, dest)`: raises `RuntimeError` when the session
holds no container, fetches the archive and raises `FileNotFoundError`
when `stat["size"] == 0`, and otherwise extracts the archive's bytes
(returned here as the successful result). -/
def copy_from_runtime (containerOpen : Bool) (statSize : Nat)
    (bits : List (List Nat)) : Except CopyError (List Nat) :=
  if ¬ containerOpen then
    .error .notOpen
  else if statSize = 0 then
    .error .remoteFileNotFound
  else
    .ok bits.flatten

/-! ## `SandboxDockerSession.close` (docker.py lines 128-159)

`close` is modelled against an explicit Docker-daemon state: a list of
live containers (each referencing its base image's id) and a list of
images (each with an id and a tag list).  The session keeps either an
image name string or an `Image` object (`self.image`), a possible
container, and the `is_create_template` / `keep_template` /
`commit_container` flags.  The side effects performed against the daemon
are returned as an explicit list so that "side-effect-free" is a statement
about that list. -/

/-- A Docker `Image` object: its daemon-side id and its tag list. -/
structure DockerImage where
  id : Nat
  tags : List String
deriving DecidableEq, Repr

/-- `self.image`: either a plain image-name string or an `Image` object
(docker.py stores both at different times). -/
inductive ImageRef where
  | name (s : String)
  | obj (img : DockerImage)
deriving DecidableEq, Repr

/-- The Docker daemon's state: live containers as (container id, base
image id) pairs, and the known images. -/
structure DockerWorld where
  containers : List (Nat × Nat)
  images : List DockerImage
deriving DecidableEq, Repr

/-- The session fields `close` reads and writes. -/
structure SessionState where
  container : Option Nat
  image : ImageRef
  is_create_template : Bool
  keep_template : Bool
  commit_container : Bool
deriving DecidableEq, Repr

/-- A side effect `close` performs against the daemon. -/
inductive CloseEffect where
  | commit (c : Nat) (tag : String)
  | removeContainer (c : Nat)
  | removeImage (id : Nat)
deriving DecidableEq, Repr

/-- Errors `close` can raise. -/
inductive CloseError where
  /-- `IndexError` from `self.image.tags[-1]` when the tag list is empty. -/
  | indexError
  /-- Docker's `ImageNotFound` from `client.images.get(...)` or from
  removing an image the daemon no longer has. -/
  | imageNotFound
deriving DecidableEq, Repr

/-- An id unused by any daemon image, for the image `commit` creates. -/
def freshImageId (w : DockerWorld) : Nat :=
  (w.images.map DockerImage.id).foldl max 0 + 1

/-- `client.images.get(name)`: the daemon image carrying that tag. -/
def imageByTag? (w : DockerWorld) (name : String) : Option DockerImage :=
  w.images.find? (fun img => name ∈ img.tags)

/-- The first half of `close` (docker.py lines 129-134): when a container
is held, commit it to `self.image.tags[-1]` if `commit_container` is set
and the image is an `Image` object, then force-remove the container and
set `self.container = None`. -/
def closeStep1 (s : SessionState) (w : DockerWorld) :
    Except CloseError (List CloseEffect × SessionState × DockerWorld) :=
  match s.container with
  | none => .ok ([], s, w)
  | some c =>
    let removedContainers := w.containers.filter (fun p => p.1 ≠ c)
    match s.image with
    | .obj img =>
      if s.commit_container then
        match img.tags.getLast? with
        | none => .error .indexError
        | some tag =>
          .ok ([.commit c tag, .removeContainer c],
            { s with container := none },
            { containers := removedContainers,
              images := w.images ++ [⟨freshImageId w, [tag]⟩] })
      else
        .ok ([.removeContainer c], { s with container := none },
          { w with containers := removedContainers })
    | .name _ =>
      .ok ([.removeContainer c], { s with container := none },
        { w with containers := removedContainers })

/-- `self.image.id` / `client.images.get(self.image).id` (docker.py lines
139-143): the `Image` object's id is a local attribute; the string case
asks the daemon and gets `ImageNotFound` (`none`) if no image has the tag. -/
def resolveImageId (s : SessionState) (w : DockerWorld) : Option Nat :=
  match s.image with
  | .obj img => some img.id
  | .name n => (imageByTag? w n).map DockerImage.id

/-- The second half of `close` (docker.py lines 136-159): when the session
freshly created its template image and is not keeping it, resolve the
image id, check whether any live container still uses it, and if not,
remove it (by name for a string image, by object otherwise — the latter
raising `ImageNotFound` when the daemon no longer has it). -/
def closeStep2 (s : SessionState) (w : DockerWorld) :
    Except CloseError (List CloseEffect × DockerWorld) :=
  if s.is_create_template && !s.keep_template then
    match resolveImageId s w with
    | none => .error .imageNotFound
    | some imageId =>
      if w.containers.any (fun p => p.2 = imageId) then
        .ok ([], w)
      else
        match s.image with
        | .name _ =>
          .ok ([.removeImage imageId],
            { w with images := w.images.filter (fun im => im.id ≠ imageId) })
        | .obj img =>
          if w.images.any (fun im => im.id = img.id) then
            .ok ([.removeImage img.id],
              { w with images := w.images.filter (fun im => im.id ≠ img.id) })
          else
            .error .imageNotFound
  else
    .ok ([], w)

/-- `SandboxDockerSession.close()`: both halves in sequence (a raise in
the first half propagates), returning the daemon effects performed, the
updated session, and the updated daemon. -/
def close (s : SessionState) (w : DockerWorld) :
    Except CloseError (List CloseEffect × SessionState × DockerWorld) :=
  match closeStep1 s w with
  | .error e => .error e
  | .ok (effs1, s1, w1) =>
    match closeStep2 s1 w1 with
    | .error e => .error e
    | .ok (effs2, w2) => .ok (effs1 ++ effs2, s1, w2)

/-- Whether an effect is a container commit or a container removal (the
effects the claim about a second `close` says must not happen). -/
def isCommitOrContainerRemoval : CloseEffect → Bool
  | .commit _ _ => true
  | .removeContainer _ => true
  | .removeImage _ => false

/-- The `integral` value the reduction loop computes over a parsed sample
sequence (the second component of the loop's accumulator). -/
def memIntegral (samples : List (Int × Int)) : Int :=
  (samples.foldl reduceStep ((0, 0), [])).1.2

/-- The `(peak_memory, integral)` pair of the loop, as a recursion over
the resident-memory values only — a proof-friendly restatement of the
`reduceStep` fold (shown equal to it in `foldl_reduceStep_eq`). -/
def peakIntegral (peak integral : Int) : List Int → Int × Int
  | [] => (peak, integral)
  | m :: ms => peakIntegral (max peak m) (integral + max peak m) ms

/-! ## Helper lemmas -/

theorem foldl_reduceStep_eq (samples : List (Int × Int)) :
    ∀ (p i : Int) (l : List (Int × Int)),
      samples.foldl reduceStep ((p, i), l)
        = (peakIntegral p i (samples.map Prod.snd), l ++ samples) := by
  induction samples with
  | nil => intro p i l; simp [peakIntegral]
  | cons a ms ih =>
    intro p i l
    simp only [List.foldl_cons, reduceStep, List.map_cons, peakIntegral, ih,
      List.append_assoc, List.singleton_append]

theorem le_foldl_max (p : Int) (l : List Int) : p ≤ l.foldl max p := by
  induction l generalizing p with
  | nil => exact le_refl p
  | cons m ms ih => exact le_trans (le_max_left p m) (ih (max p m))

theorem peakIntegral_integral_spec (ms : List Int) :
    ∀ p i : Int, (peakIntegral p i ms).2
      = i + ((List.range ms.length).map (fun j => ((ms.take (j + 1)).foldl max p))).sum := by
  induction ms with
  | nil => intro p i; simp [peakIntegral]
  | cons m ms ih =>
    intro p i
    have h1 : peakIntegral p i (m :: ms) = peakIntegral (max p m) (i + max p m) ms := rfl
    have h2 : List.map
          ((fun j => List.foldl max p (List.take (j + 1) (m :: ms))) ∘ Nat.succ)
          (List.range ms.length)
        = List.map (fun j => List.foldl max (max p m) (List.take (j + 1) ms))
          (List.range ms.length) := by
      refine List.map_congr_left ?_
      intro j _
      simp [Function.comp, List.take_succ_cons, Nat.succ_eq_add_one]
    rw [h1, ih, List.length_cons, List.range_succ_eq_map, List.map_cons,
      List.map_map, h2, List.sum_cons]
    simp only [List.take_succ_cons, List.take_zero, List.foldl_cons, List.foldl_nil]
    ring

theorem closeStep1_none (s : SessionState) (w : DockerWorld) (h : s.container = none) :
    closeStep1 s w = .ok ([], s, w) := by
  unfold closeStep1
  rw [h]

theorem closeStep1_ok_fields {s s1 : SessionState} {w w1 : DockerWorld}
    {e : List CloseEffect} (h : closeStep1 s w = .ok (e, s1, w1)) :
    s1.container = none ∧ s1.image = s.image
      ∧ s1.is_create_template = s.is_create_template
      ∧ s1.keep_template = s.keep_template := by
  unfold closeStep1 at h
  split at h
  next hc =>
    simp only [Except.ok.injEq, Prod.mk.injEq] at h
    obtain ⟨-, hs, -⟩ := h
    subst hs
    exact ⟨hc, rfl, rfl, rfl⟩
  next c hc =>
    split at h
    next img himg =>
      split at h
      · split at h
        next => exact Except.noConfusion h
        next tag htag =>
          simp only [Except.ok.injEq, Prod.mk.injEq] at h
          obtain ⟨-, hs, -⟩ := h
          subst hs
          exact ⟨rfl, rfl, rfl, rfl⟩
      · simp only [Except.ok.injEq, Prod.mk.injEq] at h
        obtain ⟨-, hs, -⟩ := h
        subst hs
        exact ⟨rfl, rfl, rfl, rfl⟩
    next nm hnm =>
      simp only [Except.ok.injEq, Prod.mk.injEq] at h
      obtain ⟨-, hs, -⟩ := h
      subst hs
      exact ⟨rfl, rfl, rfl, rfl⟩

theorem closeStep2_skip {s : SessionState} (w : DockerWorld)
    (hflag : s.is_create_template = false ∨ s.keep_template = true) :
    closeStep2 s w = .ok ([], w) := by
  unfold closeStep2
  rcases hflag with h | h <;> simp [h]

theorem closeStep2_effects {s : SessionState} {w w2 : DockerWorld}
    {e : List CloseEffect} (h : closeStep2 s w = .ok (e, w2)) :
    e.all (fun x => !isCommitOrContainerRemoval x) = true := by
  unfold closeStep2 at h
  split at h
  · split at h
    · exact Except.noConfusion h
    next imageId hres =>
      split at h
      · simp only [Except.ok.injEq, Prod.mk.injEq] at h
        obtain ⟨he, -⟩ := h
        subst he
        rfl
      · split at h
        next hnm =>
          simp only [Except.ok.injEq, Prod.mk.injEq] at h
          obtain ⟨he, -⟩ := h
          subst he
          rfl
        next img himg =>
          split at h
          · simp only [Except.ok.injEq, Prod.mk.injEq] at h
            obtain ⟨he, -⟩ := h
            subst he
            rfl
          · exact Except.noConfusion h
  · simp only [Except.ok.injEq, Prod.mk.injEq] at h
    obtain ⟨he, -⟩ := h
    subst he
    rfl

theorem peakIntegral_append (ms : List Int) :
    ∀ (p i x : Int), peakIntegral p i (ms ++ [x])
      = (max (ms.foldl max p) x,
         (peakIntegral p i ms).2 + max (ms.foldl max p) x) := by
  induction ms with
  | nil => intro p i x; simp [peakIntegral]
  | cons m ms ih =>
    intro p i x
    have h1 : (m :: ms) ++ [x] = m :: (ms ++ [x]) := rfl
    rw [h1]
    show peakIntegral (max p m) (i + max p m) (ms ++ [x]) = _
    rw [ih]
    rfl

end LlmSandbox

namespace LlmSandbox

/-! ## Claim theorems -/

/-- C1: for a multi-step (compile-then-run) command sequence, the claim
says the returned result exposes the last non-empty stderr of the
sequence; but `SandboxDockerSession.run`'s loop keeps only the last
command's output, so a failing compile step's stderr (first output) is
dropped when the final command's own streams are empty: at this input the
returned stderr is `none` while the last non-empty stderr across the
sequence is the compile error. -/
theorem c1_last_output_drops_compile_stderr :
    (runCommandLoopOutput
      [⟨none, some "g++: error: compilation failed"⟩, ⟨some "", none⟩]).stderr = none
    ∧ lastNonEmptyStderr
        [⟨none, some "g++: error: compilation failed"⟩, ⟨some "", none⟩]
      = some "g++: error: compilation failed" := by
  constructor <;> rfl

/-- C8: the claim says the memory-sample reduction fails closed (empty
series) on a malformed feed line; but the source's
`timestamp, mem = line.split(" ")` raises `ValueError` on any line that is
not exactly two space-separated integers, so the run crashes instead: on
the feed `"0 10\nnot an integer pair\n"` the profiling tail raises. -/
theorem c8_malformed_line_raises :
    runProfileStats true (some "0 10\nnot an integer pair\n") = .error .valueError
    ∧ parseMemLine "0 10 20" = none
    ∧ ∀ stats : MemStats,
        runProfileStats true (some "0 10\nnot an integer pair\n") ≠ .ok stats := by
  have h0 : runProfileStats true (some "0 10\nnot an integer pair\n")
      = .error .valueError := by decide
  refine ⟨h0, by decide, ?_⟩
  intro stats h
  rw [h0] at h
  exact Except.noConfusion h

/-- C9: for an open session, `copy_from_runtime` on a remote path whose
fetched archive reports size zero raises `FileNotFoundError` (the spec's
`RemoteFileNotFoundError`) and never returns a (silently empty or other)
successful result. -/
theorem c9_copy_from_missing_path_raises (statSize : Nat) (bits : List (List Nat))
    (hsize : statSize = 0) :
    copy_from_runtime true statSize bits = .error .remoteFileNotFound
    ∧ ∀ r, copy_from_runtime true statSize bits ≠ .ok r := by
  subst hsize
  refine ⟨rfl, ?_⟩
  intro r h
  rw [show copy_from_runtime true 0 bits = .error .remoteFileNotFound from rfl] at h
  exact Except.noConfusion h

/-- Witness for C9 at a concrete input. -/
theorem c9_copy_from_missing_path_raises_witness :
    copy_from_runtime true 0 [[1, 2, 3]] = .error .remoteFileNotFound :=
  (c9_copy_from_missing_path_raises 0 [[1, 2, 3]] rfl).1

/-- C2 counterexample: the claim says the error is raised before any
command is executed in the environment, but `setup` unconditionally
executes the bootstrap commands `apt update` and `apt install time` first:
at this concrete input the raise happens with two commands already
executed, not zero. -/
theorem c2_counterexample_bootstrap_runs_first :
    setup (fun _ => true) Lang.java ["numpy"]
      = (["apt update", "apt install time"], some .unsupportedOperation)
    ∧ (["apt update", "apt install time"] : List String) ≠ [] := by
  constructor
  · rfl
  · intro h; exact List.noConfusion h

/-- C2 (amended): for a language flagged install-unsupported and a
non-empty library list, `setup` raises `UnsupportedOperationError` (a
`ValueError` in the source) before any library-installation command is
executed — but after the two fixed bootstrap commands, which are the only
commands executed by that point. -/
theorem c2_unsupported_install_raises (installNotSupported : Lang → Bool)
    (lang : Lang) (libraries : List String)
    (hflag : installNotSupported lang = true) (hne : libraries ≠ []) :
    setup installNotSupported lang libraries
      = (["apt update", "apt install time"], some .unsupportedOperation) := by
  simp [setup, hflag, hne]

/-- Witness for C2 at a concrete input. -/
theorem c2_unsupported_install_raises_witness :
    setup (fun l => l = Lang.java) Lang.java ["numpy", "pandas"]
      = (["apt update", "apt install time"], some .unsupportedOperation) :=
  c2_unsupported_install_raises (fun l => decide (l = Lang.java)) Lang.java
    ["numpy", "pandas"] (by decide) (by decide)

/-- C7 counterexample: the claim says every supported language's profiled
sequence is the unprofiled one with the memory-sampling helper prefixed
to each execution step, but Ruby's profiled command is identical to its
unprofiled one — the helper invocation is missing. -/
theorem c7_counterexample_ruby_not_profiled :
    get_code_execution_command .ruby "/tmp/code.rb" true = ["ruby /tmp/code.rb"]
    ∧ get_code_execution_command .ruby "/tmp/code.rb" true
        = get_code_execution_command .ruby "/tmp/code.rb" false
    ∧ get_code_execution_command .ruby "/tmp/code.rb" true
        ≠ [profilerHelper ++ "ruby /tmp/code.rb"] := by
  refine ⟨rfl, rfl, ?_⟩
  decide

/-- C7 (amended): for python, java, javascript and go the profiled
sequence is the unprofiled single execution command with the
memory-sampling helper invocation prefixed; for cpp the compile step is
kept unchanged and unprefixed and only the run step is prefixed, giving
exactly two commands; every non-cpp language yields exactly one command;
but ruby's profiled sequence is identical to its unprofiled one, with no
helper prefixed. -/
theorem c7_profiled_command_sequences (code_file : String) :
    get_code_execution_command .python code_file true
      = (get_code_execution_command .python code_file false).map
          (fun c => profilerHelper ++ c)
    ∧ get_code_execution_command .java code_file true
      = (get_code_execution_command .java code_file false).map
          (fun c => profilerHelper ++ c)
    ∧ get_code_execution_command .javascript code_file true
      = (get_code_execution_command .javascript code_file false).map
          (fun c => profilerHelper ++ c)
    ∧ get_code_execution_command .go code_file true
      = (get_code_execution_command .go code_file false).map
          (fun c => profilerHelper ++ c)
    ∧ get_code_execution_command .cpp code_file false
      = ["g++ -o a.out " ++ code_file, "./a.out"]
    ∧ get_code_execution_command .cpp code_file true
      = ["g++ -o a.out " ++ code_file, profilerHelper ++ "./a.out"]
    ∧ get_code_execution_command .ruby code_file true
      = get_code_execution_command .ruby code_file false
    ∧ (get_code_execution_command .cpp code_file true).length = 2
    ∧ (get_code_execution_command .cpp code_file false).length = 2
    ∧ ∀ lang, lang ≠ .cpp →
        (get_code_execution_command lang code_file true).length = 1
        ∧ (get_code_execution_command lang code_file false).length = 1 := by
  refine ⟨rfl, rfl, rfl, rfl, rfl, rfl, rfl, rfl, rfl, ?_⟩
  intro lang hlang
  cases lang with
  | cpp => exact absurd rfl hlang
  | python => exact ⟨rfl, rfl⟩
  | java => exact ⟨rfl, rfl⟩
  | javascript => exact ⟨rfl, rfl⟩
  | go => exact ⟨rfl, rfl⟩
  | ruby => exact ⟨rfl, rfl⟩

/-- Witness for C7 at a concrete input, exercising the quantified
single-command conjunct at ruby. -/
theorem c7_profiled_command_sequences_witness :
    (get_code_execution_command .ruby "/tmp/code.rb" true).length = 1
    ∧ (get_code_execution_command .ruby "/tmp/code.rb" false).length = 1 :=
  (c7_profiled_command_sequences "/tmp/code.rb").2.2.2.2.2.2.2.2.2 .ruby
    (by intro h; exact Lang.noConfusion h)

/-- C10: `SandboxDockerSession.__init__` raises `ValueError` when both an
image and a dockerfile are given; raises `ValueError` when the language
string is outside the supported set; and when neither image nor
dockerfile is given selects the language's default image.  The model's
`initSession` performs no provisioning (the source's `__init__` only
stores configuration; the container is started in `open`). -/
theorem c10_init_validation (defaultImage : Lang → String)
    (image dockerfile : Option String) (lang : String) :
    (optTruthy image = true → optTruthy dockerfile = true →
      initSession defaultImage image dockerfile lang = .error .bothImageAndDockerfile)
    ∧ (langOfString? lang = none →
        ∃ e, initSession defaultImage image dockerfile lang = .error e)
    ∧ (∀ l, langOfString? lang = some l →
        initSession defaultImage none none lang = .ok ⟨some (defaultImage l), none, l⟩) := by
  refine ⟨?_, ?_, ?_⟩
  · intro hi hd
    simp [initSession, hi, hd]
  · intro hnone
    by_cases hb : optTruthy image = true ∧ optTruthy dockerfile = true
    · exact ⟨.bothImageAndDockerfile, by simp [initSession, hb.1, hb.2]⟩
    · refine ⟨.unsupportedLanguage, ?_⟩
      simp only [initSession, hnone]
      rw [if_neg]
      · exact fun hc => hb ⟨by simp [hc.1], by simp [hc.2]⟩
  · intro l hl
    simp [initSession, optTruthy, hl]

/-- C3 counterexample: the claim says a second `close()` is
side-effect-free and never raises, but after a first successful `close`
of a session that freshly created its template image
(`is_create_template = true`) and does not keep it, the second `close`
re-runs the image-removal branch: here the first call removes container 1
and image 5, and the second call raises `ImageNotFound` while attempting
to remove the already-removed image again. -/
theorem c3_counterexample_second_close_raises :
    close ⟨some 1, .obj ⟨5, ["img:latest"]⟩, true, false, false⟩
        ⟨[(1, 5)], [⟨5, ["img:latest"]⟩]⟩
      = .ok ([.removeContainer 1, .removeImage 5],
          ⟨none, .obj ⟨5, ["img:latest"]⟩, true, false, false⟩,
          ⟨[], []⟩)
    ∧ close ⟨none, .obj ⟨5, ["img:latest"]⟩, true, false, false⟩ ⟨[], []⟩
      = .error .imageNotFound := by
  constructor <;> rfl

/-- C3 (amended): after a successful `close`, a second `close` never
commits and never removes a container (its effects, if it succeeds, are
image removals at most); and it is fully side-effect-free and raise-free
(`.ok` with no effects and unchanged state) whenever the session did not
freshly create its template image or keeps the template — but when
`is_create_template` is true and `keep_template` is false the second call
re-runs the image-removal logic, which can remove the image again or
raise on the already-removed image (see the counterexample). -/
theorem c3_second_close (s : SessionState) (w : DockerWorld)
    (effs : List CloseEffect) (s' : SessionState) (w' : DockerWorld)
    (h : close s w = .ok (effs, s', w')) :
    ((s.is_create_template = false ∨ s.keep_template = true) →
      close s' w' = .ok ([], s', w'))
    ∧ ∀ e2 s2 w2, close s' w' = .ok (e2, s2, w2) →
        e2.all (fun e => !isCommitOrContainerRemoval e) = true := by
  have hfields : s'.container = none ∧ s'.image = s.image
      ∧ s'.is_create_template = s.is_create_template
      ∧ s'.keep_template = s.keep_template := by
    unfold close at h
    split at h
    · exact Except.noConfusion h
    next e1 s1 w1 h1 =>
      split at h
      · exact Except.noConfusion h
      next e2 w2 h2 =>
        simp only [Except.ok.injEq, Prod.mk.injEq] at h
        obtain ⟨-, hs, -⟩ := h
        exact hs ▸ closeStep1_ok_fields h1
  obtain ⟨hcont, himg, hict, hkt⟩ := hfields
  have hstep1 : closeStep1 s' w' = .ok ([], s', w') := closeStep1_none s' w' hcont
  constructor
  · intro hflag
    have hstep2 : closeStep2 s' w' = .ok ([], w') := by
      refine closeStep2_skip w' ?_
      rcases hflag with h' | h'
      · exact Or.inl (hict.trans h')
      · exact Or.inr (hkt.trans h')
    simp only [close, hstep1, hstep2, List.nil_append]
  · intro e2 s2 w2 h2
    unfold close at h2
    simp only [hstep1] at h2
    split at h2
    · exact Except.noConfusion h2
    next e2' w2' hstep2 =>
      simp only [Except.ok.injEq, Prod.mk.injEq, List.nil_append] at h2
      obtain ⟨he, -, -⟩ := h2
      exact he ▸ closeStep2_effects hstep2

/-- Witness for C3 at a concrete input: a session that did not create its
template image (`is_create_template = false`); after its first `close`
(which removes container 3) the second `close` is a no-op. -/
theorem c3_second_close_witness :
    close ⟨none, .name "img", false, false, false⟩ ⟨[], [⟨9, ["img"]⟩]⟩
      = .ok ([], ⟨none, .name "img", false, false, false⟩, ⟨[], [⟨9, ["img"]⟩]⟩) :=
  (c3_second_close ⟨some 3, .name "img", false, false, false⟩
      ⟨[(3, 9)], [⟨9, ["img"]⟩]⟩ [.removeContainer 3]
      ⟨none, .name "img", false, false, false⟩ ⟨[], [⟨9, ["img"]⟩]⟩
      (by rfl)).1 (Or.inl rfl)

/-- C4: the integral the reduction loop accumulates equals the sum, over
the samples in order, of the running maximum of the resident-memory field
up to and including that sample (for nonnegative resident values, which is
how the loop's `max` starting at `0` coincides with the true prefix
maximum), and appending one more sample never decreases the integral. -/
theorem c4_integral_running_max_sum (samples : List (Int × Int)) :
    ((∀ m ∈ samples.map Prod.snd, 0 ≤ m) →
      memIntegral samples = runningMaxSum (samples.map Prod.snd))
    ∧ ∀ x : Int × Int, memIntegral samples ≤ memIntegral (samples ++ [x]) := by
  have hmem : ∀ t : List (Int × Int),
      memIntegral t = (peakIntegral 0 0 (t.map Prod.snd)).2 := by
    intro t
    rw [memIntegral, foldl_reduceStep_eq t 0 0 []]
  have key : ∀ mems : List Int, (∀ m ∈ mems, 0 ≤ m) →
      ((List.range mems.length).map (fun j => ((mems.take (j + 1)).foldl max 0))).sum
        = runningMaxSum mems := by
    intro mems h
    cases mems with
    | nil => simp [runningMaxSum]
    | cons m rest =>
      unfold runningMaxSum
      refine congrArg List.sum (List.map_congr_left ?_)
      intro j _
      simp only [List.take_succ_cons, List.foldl_cons, List.headD_cons]
      rw [max_eq_right (h m (List.mem_cons_self m rest)), max_self]
  constructor
  · intro h
    rw [hmem, peakIntegral_integral_spec, zero_add, key (samples.map Prod.snd) h]
  · intro x
    rw [hmem, hmem, List.map_append]
    show _ ≤ (peakIntegral 0 0 (samples.map Prod.snd ++ [x.2])).2
    rw [peakIntegral_append]
    dsimp only
    have h0 : (0 : Int) ≤ max ((samples.map Prod.snd).foldl max 0) x.2 :=
      le_trans (le_foldl_max 0 _) (le_max_left _ _)
    linarith

/-- Witness for C4 at the spec's own hand-computed series
`[(0,10),(1,50),(2,30)]`, whose integral contributions are 10+50+50=110. -/
theorem c4_integral_running_max_sum_witness :
    memIntegral [((0 : Int), (10 : Int)), (1, 50), (2, 30)]
      = runningMaxSum ([((0 : Int), (10 : Int)), (1, 50), (2, 30)].map Prod.snd)
    ∧ memIntegral [((0 : Int), (10 : Int)), (1, 50), (2, 30)] = 110 :=
  ⟨(c4_integral_running_max_sum [((0 : Int), (10 : Int)), (1, 50), (2, 30)]).1
      (by decide),
   by decide⟩

/-- C5 counterexample: the claim says `duration_ms` is `0` for every
sequence of fewer than 2 samples, but at the zero-sample sequence the
source's `log[-1]` raises `IndexError` instead of producing any
statistics at all. -/
theorem c5_counterexample_empty_log_raises :
    reduceLog ([] : List (Int × Int)) = none
    ∧ ¬ ∃ stats : MemStats,
        reduceLog ([] : List (Int × Int)) = some stats ∧ stats.duration = 0 := by
  refine ⟨rfl, ?_⟩
  rintro ⟨stats, h, -⟩
  rw [show reduceLog ([] : List (Int × Int)) = none from rfl] at h
  exact Option.noConfusion h

/-- C5 (amended): for exactly one sample `duration` is `0`; for 2 or more
samples `duration = (last.timestamp - first.timestamp) / 1e6`; but for
zero samples the reduction raises `IndexError` (modelled as `none`)
rather than returning `0`. -/
theorem c5_duration_from_log (samples : List (Int × Int)) :
    (samples = [] → reduceLog samples = none)
    ∧ (∀ x : Int × Int, samples = [x] →
        ∃ stats, reduceLog samples = some stats ∧ stats.duration = 0)
    ∧ (2 ≤ samples.length →
        ∃ first last stats, samples.head? = some first
          ∧ samples.getLast? = some last
          ∧ reduceLog samples = some stats
          ∧ stats.duration = ((last.1 - first.1 : Int) : ℚ) / 1000000) := by
  refine ⟨?_, ?_, ?_⟩
  · intro h; subst h; rfl
  · intro x h
    subst h
    refine ⟨_, rfl, ?_⟩
    show ((x.1 - x.1 : Int) : ℚ) / 1000000 = 0
    simp
  · intro hlen
    cases samples with
    | nil => simp at hlen
    | cons a l =>
      cases hgl : (a :: l).getLast? with
      | none => rw [List.getLast?_eq_none_iff] at hgl; exact List.noConfusion hgl
      | some b =>
        have hred : reduceLog (a :: l)
            = some ⟨((a :: l).foldl reduceStep ((0, 0), [])).1.1,
                ((a :: l).foldl reduceStep ((0, 0), [])).1.2,
                ((b.1 - a.1 : Int) : ℚ) / 1000000,
                ((a :: l).foldl reduceStep ((0, 0), [])).2⟩ := by
          simp only [reduceLog, List.head?_cons, hgl]
        exact ⟨a, b, _, rfl, rfl, hred, rfl⟩

/-- Witness for C5: the three cases at concrete inputs — the empty log
raises, a one-sample log gives duration 0, and a two-sample log spanning
2000000 ns gives duration (2000000-0)/1e6 = 2 ms. -/
theorem c5_duration_from_log_witness :
    reduceLog ([] : List (Int × Int)) = none
    ∧ (∃ stats, reduceLog [((0 : Int), (10 : Int))] = some stats
        ∧ stats.duration = 0)
    ∧ (∃ first last stats,
        [((0 : Int), (10 : Int)), (2000000, 50)].head? = some first
        ∧ [((0 : Int), (10 : Int)), (2000000, 50)].getLast? = some last
        ∧ reduceLog [((0 : Int), (10 : Int)), (2000000, 50)] = some stats
        ∧ stats.duration = ((last.1 - first.1 : Int) : ℚ) / 1000000) :=
  ⟨(c5_duration_from_log []).1 rfl,
   (c5_duration_from_log [((0 : Int), (10 : Int))]).2.1 ((0 : Int), (10 : Int)) rfl,
   (c5_duration_from_log [((0 : Int), (10 : Int)), (2000000, 50)]).2.2 (by decide)⟩

/-- C6 counterexample: the claim says peak, duration and integral are all
zero whenever the retrieved sample feed is empty, but with profiling
requested and an empty feed the source raises instead of returning a
result: an absent (zero-size) feed file makes `copy_from_runtime` raise
`FileNotFoundError`, so no zero-valued statistics are ever returned. -/
theorem c6_counterexample_empty_feed_raises :
    runProfileStats true none = .error .fileNotFound
    ∧ ∀ stats : MemStats, runProfileStats true none ≠ .ok stats := by
  refine ⟨rfl, ?_⟩
  intro stats h
  rw [show runProfileStats true none = .error .fileNotFound from rfl] at h
  exact Except.noConfusion h

/-- C6 (amended): when profiling was not requested the returned peak
memory, integral and duration are all zero and the sample series is
empty, for any state of the feed; but when profiling was requested and
the sample feed is empty, `run` raises instead of returning zeros —
`FileNotFoundError` when the feed file is absent or zero-sized, and
`IndexError` (from `log[-1]`) when the retrieved content holds no lines. -/
theorem c6_zero_stats_without_profile (feed : Option String) :
    runProfileStats false feed = .ok ⟨0, 0, 0, []⟩
    ∧ runProfileStats true none = .error .fileNotFound
    ∧ runProfileStats true (some "") = .error .indexError := by
  exact ⟨rfl, rfl, by decide⟩

/-- Witness for C10 at concrete inputs: both image and dockerfile given,
an unsupported language string, and the default-image case. -/
theorem c10_init_validation_witness :
    initSession (fun l => l.toStr ++ ":latest") (some "img") (some "Dockerfile") "python"
      = .error .bothImageAndDockerfile
    ∧ (∃ e, initSession (fun l => l.toStr ++ ":latest") none none "haskell" = .error e)
    ∧ initSession (fun l => l.toStr ++ ":latest") none none "python"
      = .ok ⟨some "python:latest", none, .python⟩ :=
  ⟨(c10_init_validation (fun l => l.toStr ++ ":latest") (some "img") (some "Dockerfile")
      "python").1 rfl rfl,
   (c10_init_validation (fun l => l.toStr ++ ":latest") none none "haskell").2.1 rfl,
   (c10_init_validation (fun l => l.toStr ++ ":latest") none none "python").2.2 .python rfl⟩

end LlmSandbox
